import Mathlib

/-!
# slider-captcha demo page (`src/slider-captcha/src/App.js`)

A shallow embedding of the one module of the repository: the function
declarations `verifiedCallback` and `App`, the console sink the first one
writes to, and the React element the second one returns.

JavaScript strings are modelled by `String`.  Functions of the module are
state-passing functions over an explicit effect trace, returning a
completion (normal or thrown) together with the trace they leave behind.
-/

namespace SliderCaptcha

/-- One observable effect: a console entry or a network request. -/
inductive Effect where
  | log (text : String)
  | request (url : String)
deriving DecidableEq, Repr

/-- The effect trace, oldest entry first. -/
abbrev Trace := List Effect

/-- A thrown JavaScript value, carried by its message. -/
inductive JSError where
  | thrown (message : String)
deriving DecidableEq, Repr

/-- A JavaScript computation: from the trace so far to a completion and the
trace afterwards.  A thrown completion keeps the effects emitted before it. -/
abbrev JS (α : Type) := Trace → Except JSError α × Trace

/-- The function objects the module creates: its two function declarations.
The module contains no function expression, arrow function or `bind`. -/
inductive FnRef where
  | verifiedCallback
  | App
deriving DecidableEq, Repr

/-- A value passed as a JSX attribute. -/
inductive PropValue where
  | str (s : String)
  | num (n : Int)
  | fn (f : FnRef)
  | obj (fields : List (String × PropValue))

/-- What a React element is an element of: a host tag such as `div`, or an
imported component, named by its binding in the module. -/
inductive ElementType where
  | host (tag : String)
  | component (binding : String)
deriving DecidableEq, Repr

/-- A React element as `React.createElement(type, props, ...children)`
builds it: props in source order, children in source order. -/
inductive Element where
  | mk (type : ElementType) (props : List (String × PropValue))
      (children : List Element)

/-- The type of an element. -/
def Element.type : Element → ElementType
  | .mk t _ _ => t

/-- The props written on an element. -/
def Element.props : Element → List (String × PropValue)
  | .mk _ p _ => p

/-- The children of an element. -/
def Element.children : Element → List Element
  | .mk _ _ c => c

/-- `console.log(msg)` with a single string argument: with no further
argument no format specifier is interpreted, and the sink receives one
entry whose text is `msg`.  It completes normally with `undefined`. -/
def console.log (msg : String) : JS Unit :=
  fun tr => (.ok (), tr ++ [Effect.log msg])

/-- Source, lines 4-6:
`function verifiedCallback(token) { console.log("Captcha token: " + token); }`
for a string `token`, where `+` is string concatenation.  The body has no
`return`, so the normal completion carries `undefined` (here `()`). -/
def verifiedCallback (token : String) : JS Unit :=
  console.log ("Captcha token: " ++ token)

/-- Source, lines 7-19: `App()` returns
`<div className="App" style={{ paddingTop: 300 }}><SliderCaptcha create=".."
verify=".." callback={verifiedCallback} /></div>`.

A JSX string attribute is the run of characters between its quotes.  In the
source each of the two URL literals is broken over two lines: a line feed
stands between `/api/v1` and `/auth`, with no indentation after it, so the
line feed is a character of the string (`\n` below). -/
def App : JS Element :=
  fun tr =>
    (.ok (Element.mk (.host "div")
      [("className", .str "App"),
       ("style", .obj [("paddingTop", .num 300)])]
      [Element.mk (.component "SliderCaptcha")
        [("create", .str "https://dev.joobpay.com/api/v1\n/auth/captcha/create"),
         ("verify", .str "https://dev.joobpay.com/api/v1\n/auth/captcha/verify"),
         ("callback", .fn .verifiedCallback)]
        []]), tr)

/-- Calling a function object of the module on a string token, when it is
one that takes a token: `verifiedCallback`. -/
def FnRef.asCallback : FnRef → Option (String → JS Unit)
  | .verifiedCallback => some SliderCaptcha.verifiedCallback
  | .App => none

/-- The trace left by calling a function object of the module with one
string argument (`App` declares no parameter and ignores it). -/
def FnRef.traceAfter : FnRef → String → Trace → Trace
  | .verifiedCallback, arg, tr => (SliderCaptcha.verifiedCallback arg tr).2
  | .App, _, tr => (SliderCaptcha.App tr).2

/-- The widget invoking a callback once per token, in list order; each
invocation starts from the trace the previous one left. -/
def invokeAll (cb : String → JS Unit) (tokens : List String) (tr : Trace) : Trace :=
  tokens.foldl (fun acc t => (cb t acc).2) tr

/-- The string value of a prop, if it is a string. -/
def PropValue.str? : PropValue → Option String
  | .str s => some s
  | _ => none

/-- The widget elements among the children of the rendered page, given the
completion of `App`. -/
def widgetsOf : Except JSError Element → List Element
  | .ok e => e.children
  | .error _ => []

/-- The string props named `key` that the page passes to its widget. -/
def endpointProp (key : String) : List String :=
  (widgetsOf (App []).1).flatMap fun w =>
    (w.props.filter fun p => p.1 == key).filterMap fun p => p.2.str?

/-- Property from the specification, not from the source: a character the
specification excludes from an endpoint string, that is white space, a line
break or another control character. -/
def isForbiddenUrlChar (c : Char) : Bool :=
  c.isWhitespace || c.toNat < 32 || c.toNat == 127

/-- Property from the specification, not from the source: the shape asked of
an endpoint string, that is non-empty, scheme `https://`, then a host and a
path, and no white space or control character anywhere. -/
def wellFormedHttpsUrl (s : String) : Bool :=
  let rest := (s.toList.drop 8)
  let host := rest.takeWhile (· != '/')
  let path := rest.dropWhile (· != '/')
  !s.isEmpty && "https://".toList.isPrefixOf s.toList
    && !host.isEmpty && !path.isEmpty
    && !s.toList.any isForbiddenUrlChar

/-! ## Helper lemmas -/

theorem verifiedCallback_trace (t : String) (tr : Trace) :
    (verifiedCallback t tr).2 = tr ++ [Effect.log ("Captcha token: " ++ t)] := rfl

theorem invokeAll_cons (cb : String → JS Unit) (t : String) (ts : List String)
    (tr : Trace) : invokeAll cb (t :: ts) tr = invokeAll cb ts (cb t tr).2 := rfl

theorem invokeAll_verifiedCallback (tokens : List String) (tr : Trace) :
    invokeAll verifiedCallback tokens tr
      = tr ++ tokens.map (fun t => Effect.log ("Captcha token: " ++ t)) := by
  induction tokens generalizing tr with
  | nil => simp [invokeAll]
  | cons t ts ih =>
    rw [invokeAll_cons, ih, verifiedCallback_trace]
    simp

theorem append_cancel_left_str (p a b : String) (h : p ++ a = p ++ b) : a = b := by
  apply String.ext
  have h2 := congrArg String.data h
  simpa using h2

theorem drop_label (t : String) : ("Captcha token: " ++ t).drop 15 = t := by
  rw [String.drop_eq]
  apply String.ext
  simp [String.data_append]

theorem take_label (t : String) :
    ("Captcha token: " ++ t).take 15 = "Captcha token: " := by
  rw [String.take_eq]
  apply String.ext
  simp [String.data_append]

theorem getLast?_verifiedCallback (t : String) (tr : Trace) :
    (verifiedCallback t tr).2.getLast? = some (Effect.log ("Captcha token: " ++ t)) := by
  rw [verifiedCallback_trace]
  simp

/-! ## The claims -/

/-- C1: for every string token `t` and every sink, `verifiedCallback(t)`
appends exactly one entry to the sink, a log entry whose text is
`"Captcha token: "` followed by `t`; for `t = "abc123"` the text is
`"Captcha token: abc123"` and for `t = ""` it is `"Captcha token: "`. -/
theorem verifiedCallback_logs_one_entry :
    (∀ (t : String) (tr : Trace),
        (verifiedCallback t tr).2 = tr ++ [Effect.log ("Captcha token: " ++ t)]) ∧
    (∀ tr : Trace,
        (verifiedCallback "abc123" tr).2 = tr ++ [Effect.log "Captcha token: abc123"]) ∧
    (∀ tr : Trace,
        (verifiedCallback "" tr).2 = tr ++ [Effect.log "Captcha token: "]) :=
  ⟨fun t tr => verifiedCallback_trace t tr,
   fun tr => by rw [verifiedCallback_trace]; rfl,
   fun tr => by rw [verifiedCallback_trace]; rfl⟩

/-- C2: rendering `App` gives the page exactly one widget, and the props
written on it are exactly three, in this order: `create` and `verify`, each
the string literal of the source unchanged, and `callback`, the function
object `verifiedCallback` itself, which called on a token runs
`verifiedCallback`. -/
theorem App_passes_three_props (tr : Trace) :
    (widgetsOf (App tr).1).map Element.props =
      [[("create", PropValue.str "https://dev.joobpay.com/api/v1\n/auth/captcha/create"),
        ("verify", PropValue.str "https://dev.joobpay.com/api/v1\n/auth/captcha/verify"),
        ("callback", PropValue.fn FnRef.verifiedCallback)]] ∧
    FnRef.verifiedCallback.asCallback = some verifiedCallback :=
  ⟨rfl, rfl⟩

/-- C3: for every list of tokens and every initial log, invoking the callback
on the tokens in order leaves the initial log followed by one entry
`"Captcha token: " ++ t` per token, in invocation order; so the log grows by
the number of tokens, and a token invoked twice is logged twice. -/
theorem invokeAll_appends_in_order (tokens : List String) (tr : Trace) :
    invokeAll verifiedCallback tokens tr
      = tr ++ tokens.map (fun t => Effect.log ("Captcha token: " ++ t)) ∧
    (invokeAll verifiedCallback tokens tr).length = tr.length + tokens.length ∧
    (∀ t : String, invokeAll verifiedCallback [t, t] tr
      = tr ++ [Effect.log ("Captcha token: " ++ t), Effect.log ("Captcha token: " ++ t)]) := by
  refine ⟨invokeAll_verifiedCallback tokens tr, ?_, ?_⟩
  · rw [invokeAll_verifiedCallback]; simp
  · intro t; rw [invokeAll_verifiedCallback]; rfl

/-- C4 (the code at its only input): the `create` and `verify` strings that
`App` passes to the widget are non-empty, start with `https://` and have a
host and a path, but each holds a line feed at index 30, between `/api/v1`
and `/auth`, so neither is a well-formed URL free of line breaks; with the
line feed taken out both are well formed. -/
theorem App_endpoints_hold_line_feed :
    endpointProp "create" = ["https://dev.joobpay.com/api/v1\n/auth/captcha/create"] ∧
    endpointProp "verify" = ["https://dev.joobpay.com/api/v1\n/auth/captcha/verify"] ∧
    (∀ s ∈ endpointProp "create" ++ endpointProp "verify",
      s.isEmpty = false ∧ "https://".toList.isPrefixOf s.toList = true ∧
      s.toList.get? 30 = some (Char.ofNat 10) ∧
      isForbiddenUrlChar (Char.ofNat 10) = true ∧
      wellFormedHttpsUrl s = false ∧
      wellFormedHttpsUrl (String.mk (s.toList.filter (· != Char.ofNat 10))) = true) := by
  decide

/-- C5: for every string token `t` and every sink, `verifiedCallback(t)`
completes normally, never with a thrown value, and its value is `undefined`
(the unit value). -/
theorem verifiedCallback_completes_normally (t : String) (tr : Trace) :
    (verifiedCallback t tr).1 = Except.ok () ∧
    ∀ err : JSError, (verifiedCallback t tr).1 ≠ Except.error err :=
  ⟨rfl, fun _ h => nomatch h⟩

/-- C6: rendering `App` completes normally and returns one `div` element with
`className` `"App"` and `style` `{ paddingTop: 300 }`, whose only child is an
element of the `SliderCaptcha` component. -/
theorem App_renders_container (tr : Trace) :
    ∃ w : Element,
      (App tr).1 = Except.ok (Element.mk (ElementType.host "div")
        [("className", PropValue.str "App"),
         ("style", PropValue.obj [("paddingTop", PropValue.num 300)])]
        [w]) ∧
      w.type = ElementType.component "SliderCaptcha" ∧ w.children = [] :=
  ⟨_, rfl, rfl, rfl⟩

/-- C7: rendering `App` leaves the effect trace as it found it, so it emits
no network request and no log entry; among the functions of the module,
calling one changes the trace exactly when it is `verifiedCallback`, and no
function of the module ever adds a network request. -/
theorem App_emits_no_effect (tr : Trace) :
    (App tr).2 = tr ∧
    (∀ (f : FnRef) (arg : String), f.traceAfter arg tr ≠ tr ↔ f = FnRef.verifiedCallback) ∧
    (∀ (f : FnRef) (arg url : String),
      Effect.request url ∈ f.traceAfter arg tr → Effect.request url ∈ tr) := by
  refine ⟨rfl, ?_, ?_⟩
  · intro f arg
    cases f with
    | verifiedCallback =>
      simp only [FnRef.traceAfter, verifiedCallback_trace]
      simp
    | App => simp [FnRef.traceAfter, App]
  · intro f arg url h
    cases f with
    | verifiedCallback =>
      simp only [FnRef.traceAfter, verifiedCallback_trace] at h
      simpa using h
    | App => simpa [FnRef.traceAfter, App] using h

/-- C8: after any sequence of callback invocations, from any trace, rendering
`App` returns the same element as the initial render on the empty trace, and
a later callback invocation appends the entry for its own token only and
completes normally, whatever tokens came before. -/
theorem App_is_stateless (tokens : List String) (tr : Trace) :
    (App (invokeAll verifiedCallback tokens tr)).1 = (App []).1 ∧
    ∀ t : String,
      (verifiedCallback t (invokeAll verifiedCallback tokens tr)).2
        = invokeAll verifiedCallback tokens tr ++ [Effect.log ("Captcha token: " ++ t)] ∧
      (verifiedCallback t (invokeAll verifiedCallback tokens tr)).1 = Except.ok () :=
  ⟨rfl, fun _ => ⟨rfl, rfl⟩⟩

/-- C9: the entry determines the token: if the last entries left by
`verifiedCallback(t1)` and `verifiedCallback(t2)`, on any two traces, are
equal, then `t1 = t2`; and the entry written for `t` is a log entry whose
first 15 characters are `"Captcha token: "` and whose text with these 15
characters dropped is `t`. -/
theorem entry_determines_token :
    (∀ (t1 t2 : String) (tr1 tr2 : Trace),
      (verifiedCallback t1 tr1).2.getLast? = (verifiedCallback t2 tr2).2.getLast? →
      t1 = t2) ∧
    (∀ (t : String) (tr : Trace), ∃ e : String,
      (verifiedCallback t tr).2 = tr ++ [Effect.log e] ∧
      e.take 15 = "Captcha token: " ∧ e.drop 15 = t) ∧
    "Captcha token: ".length = 15 := by
  refine ⟨?_, ?_, by decide⟩
  · intro t1 t2 tr1 tr2 h
    rw [getLast?_verifiedCallback, getLast?_verifiedCallback] at h
    exact append_cancel_left_str _ _ _ (Effect.log.inj (Option.some.inj h))
  · intro t tr
    exact ⟨_, verifiedCallback_trace t tr, take_label t, drop_label t⟩

/-- Witness for C9 at the token `"abc123"`, logged on two different traces. -/
theorem entry_determines_token_witness :
    (verifiedCallback "abc123" []).2.getLast?
        = (verifiedCallback "abc123" [Effect.request "u"]).2.getLast? ∧
      "abc123" = "abc123" :=
  ⟨by decide,
   entry_determines_token.1 "abc123" "abc123" [] [Effect.request "u"] (by decide)⟩

end SliderCaptcha
